import Mathlib

/-!
Verification of the Talking Orange voice-processing pipeline
(src/backend/gen/main.py, voice_to_text.py, text_to_voice.py).

The pipeline is embedded shallowly: each Python method becomes a total Lean
function; external effects (subprocess results, model inference, HTTP calls,
the gTTS library) are supplied through explicit oracle records; Python
exceptions become `Except` values; the on-disk lifetime of the temporary
files the code creates is tracked by explicit booleans in each outcome
record.
-/

namespace TalkingOrange

/-! ## SynthesisEngine: engine ids and availability
Embeds `TextToVoiceService._check_available_engines` and
`TextToVoiceService._choose_best_engine` (src/backend/gen/text_to_voice.py).
The seven engine id strings the service ever appends to
`self.available_engines` form the enumeration `TTSEngine`. -/

inductive TTSEngine where
  | local_espeak
  | local_festival
  | local_pico2wave
  | local_gtts
  | venice_ai
  | elevenlabs
  | openai
deriving DecidableEq, Repr

/-- The Python id string of an engine (the values stored in
`self.available_engines`). -/
def TTSEngine.engineId : TTSEngine → String
  | .local_espeak => "local_espeak"
  | .local_festival => "local_festival"
  | .local_pico2wave => "local_pico2wave"
  | .local_gtts => "local_gtts"
  | .venice_ai => "venice_ai"
  | .elevenlabs => "elevenlabs"
  | .openai => "openai"

/-- Engines dispatched by `engine.startswith("local_")` in `synthesize_speech`. -/
def TTSEngine.isLocal : TTSEngine → Bool
  | .local_espeak | .local_festival | .local_pico2wave | .local_gtts => true
  | .venice_ai | .elevenlabs | .openai => false

/-- The environment probed once by `_check_available_engines`: PATH presence of
the four local binaries (`which <engine>`), and the three cloud credential
slots (VENICE_KEY, ELEVENLABS_API_KEY, OPENAI_API_KEY). -/
structure TTSEnv where
  has_espeak : Bool
  has_festival : Bool
  has_pico2wave : Bool
  has_gtts : Bool
  venice_key : Bool
  elevenlabs_key : Bool
  openai_key : Bool
deriving DecidableEq, Repr

/-- `TextToVoiceService._check_available_engines`: locals are appended in the
loop order `['espeak', 'festival', 'pico2wave', 'gtts']`, then the three cloud
engines in the order venice_ai, elevenlabs, openai. -/
def check_available_engines (env : TTSEnv) : List TTSEngine :=
  (if env.has_espeak then [TTSEngine.local_espeak] else []) ++
  (if env.has_festival then [TTSEngine.local_festival] else []) ++
  (if env.has_pico2wave then [TTSEngine.local_pico2wave] else []) ++
  (if env.has_gtts then [TTSEngine.local_gtts] else []) ++
  (if env.venice_key then [TTSEngine.venice_ai] else []) ++
  (if env.elevenlabs_key then [TTSEngine.elevenlabs] else []) ++
  (if env.openai_key then [TTSEngine.openai] else [])

/-- Error taxonomy of the synthesis side (§7 of the spec): the Python code
raises plain `Exception`/`ValueError` objects; the constructors record which
raise site produced the error. -/
inductive TTSError where
  | noEngineAvailable
  | inputValidation (msg : String)
  | unknownEngine (engine : String)
  | synthesisFailed (msg : String)
deriving DecidableEq, Repr

/-- The `priority_engines` list of `_choose_best_engine`, verbatim. -/
def priority_engines : List TTSEngine :=
  [.local_espeak, .local_festival, .local_pico2wave, .local_gtts,
   .venice_ai, .elevenlabs, .openai]

/-- The `for engine in priority_engines: if engine in self.available_engines`
loop of `_choose_best_engine`. -/
def first_available (avail : List TTSEngine) : List TTSEngine → Option TTSEngine
  | [] => none
  | e :: rest => if e ∈ avail then some e else first_available avail rest

/-- `TextToVoiceService._choose_best_engine`: first engine of
`priority_engines` present in the availability set; raises
`Exception("No TTS engines available")` when the loop falls through. -/
def choose_best_engine (avail : List TTSEngine) : Except TTSError TTSEngine :=
  match first_available avail priority_engines with
  | some e => .ok e
  | none => .error .noEngineAvailable

/-- Position of an engine in the `priority_engines` precedence list. -/
def engineRank : TTSEngine → Nat
  | .local_espeak => 0
  | .local_festival => 1
  | .local_pico2wave => 2
  | .local_gtts => 3
  | .venice_ai => 4
  | .elevenlabs => 5
  | .openai => 6

/-! ## SynthesisEngine: local command-line dispatch
Embeds `TextToVoiceService._synthesize_local` and `_synthesize_gtts`
(src/backend/gen/text_to_voice.py lines 166-291). The subprocess run, the
bytes pico2wave writes into the temp output file, and the gTTS library call
are oracles. `temp_exists` records whether the `.wav` temp file created with
`tempfile.NamedTemporaryFile(delete=False)` is still on disk when the call
returns. -/

/-- The four engines `_synthesize_local` recognises (ids `local_<name>`). -/
inductive LocalEngine where
  | espeak
  | festival
  | pico2wave
  | gtts
deriving DecidableEq, Repr

def LocalEngine.engineId : LocalEngine → String
  | .espeak => "local_espeak"
  | .festival => "local_festival"
  | .pico2wave => "local_pico2wave"
  | .gtts => "local_gtts"

/-- Normalized synthesis result shape (the dict every dispatch variant
returns). `speed` and `pitch` are floats in the source and are omitted; no
claim mentions them. -/
structure SynthResult where
  audio_data : List Nat
  format : String
  engine : String
  voice : String
  language : String
deriving DecidableEq, Repr

/-- Raise sites inside `_synthesize_local` / `_synthesize_gtts`; every one is
re-raised by the method's own handler as `Exception("Local TTS error: ...")`,
which keeps the message, so the constructors record the original site. -/
inductive LocalErr where
  | commandFailed (stderr : String)
  | emptyOutput
  | gttsFailed (msg : String)
deriving DecidableEq, Repr

/-- Effects of one local dispatch: the subprocess outcome (`returncode`,
captured `stdout` bytes, `stderr` text), the bytes pico2wave itself wrote
into the temp file, and the gTTS in-process library outcome. -/
structure LocalOracle where
  returncode : Int
  stdout : List Nat
  stderr : String
  pico_written : List Nat
  gtts : Except String (List Nat)
deriving Repr

structure LocalOutcome where
  result : Except LocalErr SynthResult
  temp_exists : Bool
deriving Repr

/-- `TextToVoiceService._synthesize_gtts`: in-process gTTS library call, no
subprocess and no temp file of its own; failure raises. -/
def synthesize_gtts (language : String) (gtts : Except String (List Nat)) :
    Except LocalErr SynthResult :=
  match gtts with
  | .ok audio =>
      .ok { audio_data := audio, format := "mp3", engine := "local_gtts",
            voice := "google", language := language }
  | .error m => .error (.gttsFailed m)

/-- `TextToVoiceService._synthesize_local`. The temp `.wav` output file is
created (empty) before the engine dispatch. espeak and festival write to
stdout: on returncode 0 the captured stdout becomes the file content, on a
nonzero returncode the method raises `TTS command failed` at once.
pico2wave writes into the file directly and its returncode is never checked.
The file-existence half of the final `os.path.exists and getsize > 0` check
is always true here because `NamedTemporaryFile` created the file, so the
check reduces to the written size. `os.unlink(output_path)` runs only inside
the success branch: there is no finally, so every failure path (and the gtts
branch, which returns or raises before reaching it) leaves the temp file on
disk. -/
def synthesize_local (eng : LocalEngine) (text voice language : String)
    (o : LocalOracle) : LocalOutcome :=
  match eng with
  | .gtts =>
      { result := synthesize_gtts language o.gtts, temp_exists := true }
  | .pico2wave =>
      if o.pico_written.length > 0 then
        { result := .ok { audio_data := o.pico_written, format := "wav",
                          engine := LocalEngine.pico2wave.engineId,
                          voice := voice, language := language },
          temp_exists := false }
      else
        { result := .error .emptyOutput, temp_exists := true }
  | .espeak | .festival =>
      if o.returncode = 0 then
        if o.stdout.length > 0 then
          { result := .ok { audio_data := o.stdout, format := "wav",
                            engine := eng.engineId,
                            voice := voice, language := language },
            temp_exists := false }
        else
          { result := .error .emptyOutput, temp_exists := true }
      else
        { result := .error (.commandFailed o.stderr), temp_exists := true }

/-! ## SynthesisEngine: the service object
Embeds `TextToVoiceService.__init__` and the read-only methods that follow.
`available_engines` is assigned exactly once, by `_check_available_engines`
inside `__init__`; no later method writes to it, which the step function
below makes explicit by returning the service unchanged. -/

structure TTSService where
  voice_dir : String
  venice_api_key : Bool
  elevenlabs_api_key : Bool
  openai_api_key : Bool
  available_engines : List TTSEngine
deriving Repr

/-- `TextToVoiceService.__init__`: reads the credential slots, then calls
`_check_available_engines` once. Construction is total: an empty probe
result is stored, not raised on. -/
def ttsNew (env : TTSEnv) (voice_dir : String) : TTSService :=
  { voice_dir := voice_dir
    venice_api_key := env.venice_key
    elevenlabs_api_key := env.elevenlabs_key
    openai_api_key := env.openai_key
    available_engines := check_available_engines env }

/-- One cloud HTTP outcome (status code, response body, error text). -/
structure CloudOracle where
  status : Nat
  body : List Nat
  err_text : String
deriving Repr

/-- Common shape of `_synthesize_venice_ai`, `_synthesize_elevenlabs` and
`_synthesize_openai`: missing credential raises, HTTP 200 yields an mp3
result, any other status raises with the provider body. The
provider-specific payloads are external HTTP detail carried by the oracle. -/
def synthesize_cloud (engine voice language : String) (has_key : Bool)
    (o : CloudOracle) : Except TTSError SynthResult :=
  if has_key then
    if o.status = 200 then
      .ok { audio_data := o.body, format := "mp3", engine := engine,
            voice := voice, language := language }
    else .error (.synthesisFailed o.err_text)
  else .error (.synthesisFailed (engine ++ " API key not found"))

structure DispatchOracle where
  subproc : LocalOracle
  cloud : CloudOracle
deriving Repr

def localErrMsg : LocalErr → String
  | .commandFailed s => "Local TTS error: TTS command failed: " ++ s
  | .emptyOutput => "Local TTS error: TTS engine failed to generate audio"
  | .gttsFailed m => "Local TTS error: gTTS error: " ++ m

/-- `TextToVoiceService.synthesize_speech`: empty text is rejected, the
`"auto"` sentinel resolves through `_choose_best_engine`, and the chain of
`if engine ==` tests routes to the matching dispatch variant. The unknown
local-engine and unknown-engine `ValueError` raise sites are merged into
`unknownEngine`. The method only reads `self`; the returned pair carries the
service unchanged. -/
def TTSService.synthesize_speech (s : TTSService)
    (text voice language engine : String) (o : DispatchOracle) :
    Except TTSError SynthResult × TTSService :=
  ((if text.trim = "" then .error (.inputValidation "Empty text provided")
    else
      let resolved : Except TTSError String :=
        if engine = "auto" then
          (choose_best_engine s.available_engines).map TTSEngine.engineId
        else .ok engine
      match resolved with
      | .error e => .error e
      | .ok e =>
        let localR : LocalEngine → Except TTSError SynthResult := fun le =>
          match (synthesize_local le text voice language o.subproc).result with
          | .ok r => .ok r
          | .error err => .error (.synthesisFailed (localErrMsg err))
        if e = "local_espeak" then localR .espeak
        else if e = "local_festival" then localR .festival
        else if e = "local_pico2wave" then localR .pico2wave
        else if e = "local_gtts" then localR .gtts
        else if e = "venice_ai" then
          synthesize_cloud e voice language s.venice_api_key o.cloud
        else if e = "elevenlabs" then
          synthesize_cloud e voice language s.elevenlabs_api_key o.cloud
        else if e = "openai" then
          synthesize_cloud e voice language s.openai_api_key o.cloud
        else .error (.unknownEngine e)),
   s)

/-- The public operations of a constructed `TextToVoiceService`, as they act
on the service state. `_choose_best_engine`, `get_status` and
`get_available_voices` are pure reads. -/
inductive TTSOp where
  | synth (text voice language engine : String) (o : DispatchOracle)
  | chooseBest
  | getStatus
  | getVoices (engine : String)

def ttsStep (s : TTSService) : TTSOp → TTSService
  | .synth text voice language engine o =>
      (s.synthesize_speech text voice language engine o).2
  | .chooseBest => s
  | .getStatus => s
  | .getVoices _ => s

def ttsTrace (s : TTSService) : List TTSOp → TTSService
  | [] => s
  | op :: ops => ttsTrace (ttsStep s op) ops

/-- The all-empty probe environment: nothing on PATH, no credentials. -/
def emptyTTSEnv : TTSEnv :=
  { has_espeak := false, has_festival := false, has_pico2wave := false,
    has_gtts := false, venice_key := false, elevenlabs_key := false,
    openai_key := false }

/-! ## TranscriptionEngine: device resolution and model loading
Embeds `VoiceToTextService.__init__` and `VoiceToTextService.initialize`
(src/backend/gen/voice_to_text.py lines 29-210). -/

inductive Device where
  | cpu
  | cuda
deriving DecidableEq, Repr

/-- The mutable fields of `VoiceToTextService` the claims are about
(`self.device`, `self.use_fp16`, `self.model is not None`). -/
structure STTState where
  device : Device
  use_fp16 : Bool
  model_loaded : Bool
deriving DecidableEq, Repr

/-- `VoiceToTextService.__init__`: the WHISPER_FORCE_CPU override wins,
otherwise CUDA availability decides, and
`self.use_fp16 = self.device == "cuda"` on the resolved device. -/
def sttNew (force_cpu cuda_available : Bool) : STTState :=
  let device := if force_cpu then Device.cpu
                else if cuda_available then Device.cuda else Device.cpu
  { device := device, use_fp16 := device == Device.cuda, model_loaded := false }

/-- Outcomes of one `initialize()` call: an exception before the load attempt
(directory setup), the `whisper.load_model` attempt on the resolved device,
and the retry attempt on CPU. -/
structure LoadOracle where
  preload_fail : Bool
  device_load_ok : Bool
  cpu_load_ok : Bool
deriving DecidableEq, Repr

/-- `VoiceToTextService.initialize`: load on the resolved device; on any
failure set `self.device = "cpu"`, `self.use_fp16 = False` and retry once on
CPU; a failing retry re-raises, which the outer handler turns into `False`.
Returns the boolean the method returns together with the state it leaves
behind. -/
def sttInitialize (s : STTState) (o : LoadOracle) : Bool × STTState :=
  if o.preload_fail then (false, s)
  else if o.device_load_ok then (true, { s with model_loaded := true })
  else if o.cpu_load_ok then
    (true, { s with device := Device.cpu, use_fp16 := false, model_loaded := true })
  else
    (false, { s with device := Device.cpu, use_fp16 := false })

/-- The state after a sequence of `initialize()` calls. -/
def sttInitializeTrace (s : STTState) : List LoadOracle → STTState
  | [] => s
  | o :: os => sttInitializeTrace (sttInitialize s o).2 os

/-- The invariant of claim C9: half-precision is enabled iff the current
device is the GPU. -/
def fp16_invariant (s : STTState) : Prop :=
  s.use_fp16 = (s.device == Device.cuda)

/-! ## TranscriptionEngine: buffer transcription
Embeds `VoiceToTextService.transcribe_audio_buffer` and
`_convert_audio_format` (src/backend/gen/voice_to_text.py lines 274-403).
`transcribe_audio` calls on the temp file and on the converted file are
oracles returning either a result dict or the message of the
`Exception("Transcription error: ...")` they raise. -/

/-- The result dict of `transcribe_audio` (the float fields `duration` and
`confidence` are omitted; no claim mentions them). -/
structure TranscriptionResult where
  text : String
  language : String
  model : String
  device : String
deriving DecidableEq, Repr

/-- Raise sites of `transcribe_audio_buffer`; each is re-raised by the
method's handler as `Exception("Buffer transcription error: " + msg)`. -/
inductive BufferError where
  | inputValidation (msg : String)
  | modelNotInitialized (msg : String)
  | transcription (msg : String)
deriving DecidableEq, Repr

/-- The wrapping applied by the outer `except` of `transcribe_audio_buffer`. -/
def buffer_error_wrap (msg : String) : String :=
  "Buffer transcription error: " ++ msg

/-- `_convert_audio_format` environment: whether `which ffmpeg` succeeds and
whether the ffmpeg run exits 0 with the output file present. -/
structure ConvOracle where
  ffmpeg_found : Bool
  run_ok : Bool
deriving DecidableEq, Repr

/-- The exact argument list `_convert_audio_format` passes to ffmpeg:
resample to 16000 Hz, one channel. -/
def ffmpeg_convert_cmd (input_path output_path : String) : List String :=
  ["ffmpeg", "-y", "-i", input_path, "-ar", "16000", "-ac", "1", output_path]

/-- The value following a flag in an argument list. -/
def argAfter : List String → String → Option String
  | [], _ => none
  | [_], _ => none
  | a :: b :: rest, flag => if a = flag then some b else argAfter (b :: rest) flag

/-- `VoiceToTextService._convert_audio_format`: returns whether a converted
file was produced (`None` both when ffmpeg is absent and when the run fails;
the method catches its own exceptions and returns `None`). -/
def convert_audio_format (o : ConvOracle) : Bool :=
  if o.ffmpeg_found then o.run_ok else false

/-- External outcomes of one `transcribe_audio_buffer` call: the non-fatal
pydub probe, the first `transcribe_audio` attempt on the temp file, the
conversion environment, and the retried `transcribe_audio` attempt on the
converted file. -/
structure BufferOracle where
  pydub_ok : Bool
  first : Except String TranscriptionResult
  conv : ConvOracle
  retry : Except String TranscriptionResult
deriving Repr

/-- What one `transcribe_audio_buffer` call did: its return or raise, whether
the `.webm` temp file was materialized and whether it is still on disk at
return, the same for the converted `.wav` file, how many times
`_convert_audio_format` ran and how many times `transcribe_audio` ran. -/
structure BufOutcome where
  result : Except BufferError TranscriptionResult
  temp_created : Bool
  temp_exists : Bool
  conv_attempts : Nat
  conv_created : Bool
  conv_exists : Bool
  transcribe_calls : Nat
deriving Repr

/-- `VoiceToTextService.transcribe_audio_buffer`. Control flow of the source:
buffers under 100 bytes raise `ValueError` before the model check and before
the temp file exists; a missing model raises next, still before the temp
file; then the buffer is written to a `.webm` temp file (its size equals the
buffer length, so the written-file check passes), the pydub probe result is
logged and ignored, and `transcribe_audio` runs. On failure the temp file is
converted once and `transcribe_audio` retried once on the converted file; a
failed conversion or failed retry re-raises the original error. The `finally`
unlinks the temp file on every path on which it was created; the converted
file is unlinked only on retry success. -/
def transcribe_audio_buffer (bufLen : Nat) (model_loaded : Bool)
    (o : BufferOracle) : BufOutcome :=
  if bufLen < 100 then
    { result := .error (.inputValidation
        (buffer_error_wrap "Audio buffer is too small or empty")),
      temp_created := false, temp_exists := false,
      conv_attempts := 0, conv_created := false, conv_exists := false,
      transcribe_calls := 0 }
  else if !model_loaded then
    { result := .error (.modelNotInitialized
        (buffer_error_wrap "Whisper model not initialized")),
      temp_created := false, temp_exists := false,
      conv_attempts := 0, conv_created := false, conv_exists := false,
      transcribe_calls := 0 }
  else
    match o.first with
    | .ok r =>
      { result := .ok r, temp_created := true, temp_exists := false,
        conv_attempts := 0, conv_created := false, conv_exists := false,
        transcribe_calls := 1 }
    | .error e1 =>
      if convert_audio_format o.conv then
        match o.retry with
        | .ok r =>
          { result := .ok r, temp_created := true, temp_exists := false,
            conv_attempts := 1, conv_created := true, conv_exists := false,
            transcribe_calls := 2 }
        | .error _ =>
          { result := .error (.transcription (buffer_error_wrap e1)),
            temp_created := true, temp_exists := false,
            conv_attempts := 1, conv_created := true, conv_exists := true,
            transcribe_calls := 2 }
      else
        { result := .error (.transcription (buffer_error_wrap e1)),
          temp_created := true, temp_exists := false,
          conv_attempts := 1, conv_created := false, conv_exists := false,
          transcribe_calls := 1 }

/-! ## PipelineOrchestrator
Embeds `TalkingOrangeVoiceSystem.process_voice_input_sync`,
`_generate_bitcoin_response_sync` and the module-level
`synthesize_speech_sync` those call (src/backend/gen/main.py lines 90-194,
src/backend/gen/text_to_voice.py lines 445-489). -/

/-- `_generate_bitcoin_response_sync`: the LLM call outcome is the oracle; a
non-empty stripped response is returned stripped, an empty or missing one
becomes the first canned fallback, and any exception becomes the second
canned fallback carrying the exception text. The method never raises. -/
def generate_bitcoin_response_sync (llm : Except String String) : String :=
  match llm with
  | .ok response =>
      if response.trim ≠ "" then response.trim
      else "I'm having trouble generating a response right now. Please try again!"
  | .error e =>
      "Sorry, I'm having trouble connecting to my AI brain right now. Error: " ++ e

/-- The dict `synthesize_speech_sync` returns. -/
structure SynthSyncResult where
  audio_data : List Nat
  format : String
  engine : String
  voice : String
deriving DecidableEq, Repr

/-- Module-level `synthesize_speech_sync` of text_to_voice.py: always uses
gTTS; a gTTS failure is caught by its inner handler and becomes the empty
`"fallback"` result. The outer handler (tag `"error"`) guards only the
logging line and the inner try, so no synthesis failure reaches it; the
function never raises. `text`, `language` and `engine` feed gTTS, whose
outcome is the oracle. -/
def synthesize_speech_sync (text voice language engine : String)
    (gtts : Except String (List Nat)) : SynthSyncResult :=
  match gtts with
  | .ok audio =>
      { audio_data := audio, format := "mp3", engine := "gtts", voice := voice }
  | .error _ =>
      { audio_data := [], format := "wav", engine := "fallback", voice := voice }

/-- Values of the result dict `process_voice_input_sync` builds. -/
inductive PyValue where
  | str (s : String)
  | bytes (b : List Nat)
deriving DecidableEq, Repr

/-- A Python dict with string keys, as an association list. -/
abbrev ResultDict := List (String × PyValue)

/-- The fixed dict returned by the `except` branch of
`process_voice_input_sync`: empty transcript, the fixed apology text, empty
audio and the `"error"` tag on every stage. -/
def voice_error_result : ResultDict :=
  [("transcription", PyValue.str ""),
   ("response_text",
    PyValue.str "I'm having trouble processing your request. Please try again."),
   ("audio_data", PyValue.bytes []),
   ("stt_engine", PyValue.str "error"),
   ("tts_engine", PyValue.str "error"),
   ("tts_voice", PyValue.str "error")]

/-- `audio_input: Union[str, bytes]`: a bytes buffer of the given length, or
already-transcribed text. -/
inductive AudioInput where
  | audio (bufLen : Nat)
  | text (s : String)

/-- The transcription stage of `process_voice_input_sync`: bytes go through
`transcribe_audio_buffer` and `transcription["text"]`, a string is used as
the transcript directly. -/
def pipeline_transcript (inp : AudioInput) (model_loaded : Bool)
    (o : BufferOracle) : Except BufferError String :=
  match inp with
  | .audio n => (transcribe_audio_buffer n model_loaded o).result.map (fun r => r.text)
  | .text s => .ok s

/-- `TalkingOrangeVoiceSystem.process_voice_input_sync`: transcribe, then
`_generate_bitcoin_response_sync` (total), then `synthesize_speech_sync`
(total), then build the result dict; the surrounding `except Exception`
converts any raise - reachable only from the transcription stage - into
`voice_error_result`. The embedding is a total function into `ResultDict`:
no exception leaves the method. -/
def process_voice_input_sync (inp : AudioInput) (model_loaded : Bool)
    (o : BufferOracle) (llm : Except String String)
    (gtts : Except String (List Nat)) (tts_voice language tts_engine : String) :
    ResultDict :=
  match pipeline_transcript inp model_loaded o with
  | .error _ => voice_error_result
  | .ok user_text =>
    let response_text := generate_bitcoin_response_sync llm
    let tts := synthesize_speech_sync response_text tts_voice language tts_engine gtts
    [("transcription", PyValue.str user_text),
     ("response_text", PyValue.str response_text),
     ("audio_data", PyValue.bytes tts.audio_data),
     ("stt_engine", PyValue.str "whisper"),
     ("tts_engine", PyValue.str tts.engine),
     ("tts_voice", PyValue.str tts.voice)]

/-! ## Concrete sample values used by the witnesses -/

def sampleTR : TranscriptionResult :=
  { text := "hello world", language := "en", model := "medium", device := "cpu" }

/-- An oracle whose first transcription attempt succeeds. -/
def okOracle : BufferOracle :=
  { pydub_ok := true, first := .ok sampleTR,
    conv := { ffmpeg_found := false, run_ok := false }, retry := .ok sampleTR }

/-- An oracle whose first transcription attempt fails and whose conversion
finds no ffmpeg. -/
def failOracle : BufferOracle :=
  { pydub_ok := true, first := .error "Transcription error: bad data",
    conv := { ffmpeg_found := false, run_ok := false },
    retry := .error "Transcription error: still bad" }

/-! # Theorems -/

theorem choose_best_engine_unfold (avail : List TTSEngine) :
    choose_best_engine avail =
      (if TTSEngine.local_espeak ∈ avail then .ok .local_espeak
       else if TTSEngine.local_festival ∈ avail then .ok .local_festival
       else if TTSEngine.local_pico2wave ∈ avail then .ok .local_pico2wave
       else if TTSEngine.local_gtts ∈ avail then .ok .local_gtts
       else if TTSEngine.venice_ai ∈ avail then .ok .venice_ai
       else if TTSEngine.elevenlabs ∈ avail then .ok .elevenlabs
       else if TTSEngine.openai ∈ avail then .ok .openai
       else .error .noEngineAvailable) := by
  simp only [choose_best_engine, priority_engines, first_available]
  split_ifs <;> rfl

/-- C3: `choose_best_engine` is a deterministic function of the
EngineAvailability set: lists with the same members give the same answer; it
returns the first available engine in the fixed precedence order, in which
every local engine precedes every cloud engine and espeak is first among
locals (`engineRank` is exactly the position in the source's
`priority_engines` list); and it raises `NoEngineAvailableError` exactly when
the availability set is empty. -/
theorem choose_best_engine_spec (avail avail2 : List TTSEngine) :
    (choose_best_engine avail = .error .noEngineAvailable ↔ avail = [])
  ∧ (∀ e, choose_best_engine avail = .ok e →
      e ∈ avail ∧ ∀ f ∈ avail, engineRank e ≤ engineRank f)
  ∧ ((∀ x, x ∈ avail ↔ x ∈ avail2) →
      choose_best_engine avail = choose_best_engine avail2)
  ∧ (∀ l c : TTSEngine, l.isLocal = true → c.isLocal = false →
      engineRank l < engineRank c)
  ∧ (∀ l : TTSEngine, l.isLocal = true →
      engineRank TTSEngine.local_espeak ≤ engineRank l)
  ∧ (∀ e : TTSEngine, priority_engines[engineRank e]? = some e) := by
  refine ⟨?_, ?_, ?_, ?_, ?_, ?_⟩
  · rw [choose_best_engine_unfold]
    split_ifs with h1 h2 h3 h4 h5 h6 h7
    · exact ⟨fun h => (nomatch h), fun h => by subst h; cases h1⟩
    · exact ⟨fun h => (nomatch h), fun h => by subst h; cases h2⟩
    · exact ⟨fun h => (nomatch h), fun h => by subst h; cases h3⟩
    · exact ⟨fun h => (nomatch h), fun h => by subst h; cases h4⟩
    · exact ⟨fun h => (nomatch h), fun h => by subst h; cases h5⟩
    · exact ⟨fun h => (nomatch h), fun h => by subst h; cases h6⟩
    · exact ⟨fun h => (nomatch h), fun h => by subst h; cases h7⟩
    · refine ⟨fun _ => List.eq_nil_iff_forall_not_mem.mpr ?_, fun _ => rfl⟩
      intro x
      cases x <;> assumption
  · rw [choose_best_engine_unfold]
    split_ifs with h1 h2 h3 h4 h5 h6 h7 <;> intro e he
    · obtain rfl : TTSEngine.local_espeak = e := by injection he
      exact ⟨h1, fun f hf => by cases f <;> simp_all [engineRank]⟩
    · obtain rfl : TTSEngine.local_festival = e := by injection he
      exact ⟨h2, fun f hf => by cases f <;> simp_all [engineRank]⟩
    · obtain rfl : TTSEngine.local_pico2wave = e := by injection he
      exact ⟨h3, fun f hf => by cases f <;> simp_all [engineRank]⟩
    · obtain rfl : TTSEngine.local_gtts = e := by injection he
      exact ⟨h4, fun f hf => by cases f <;> simp_all [engineRank]⟩
    · obtain rfl : TTSEngine.venice_ai = e := by injection he
      exact ⟨h5, fun f hf => by cases f <;> simp_all [engineRank]⟩
    · obtain rfl : TTSEngine.elevenlabs = e := by injection he
      exact ⟨h6, fun f hf => by cases f <;> simp_all [engineRank]⟩
    · obtain rfl : TTSEngine.openai = e := by injection he
      exact ⟨h7, fun f hf => by cases f <;> simp_all [engineRank]⟩
    · exact (nomatch he)
  · intro h
    rw [choose_best_engine_unfold, choose_best_engine_unfold]
    simp only [h]
  · intro l c hl hc
    cases l <;> cases c <;> simp_all [TTSEngine.isLocal, engineRank]
  · intro l hl
    cases l <;> simp_all [TTSEngine.isLocal, engineRank]
  · intro e
    cases e <;> rfl

/-- Witness for C3: on the empty availability set, `choose_best_engine`
raises `NoEngineAvailableError`. -/
theorem choose_best_engine_spec_witness :
    choose_best_engine [] = Except.error TTSError.noEngineAvailable :=
  (choose_best_engine_spec [] []).1.mpr rfl

theorem ttsTrace_preserves_availability (ops : List TTSOp) :
    ∀ s : TTSService, (ttsTrace s ops).available_engines = s.available_engines := by
  induction ops with
  | nil => intro s; rfl
  | cons op ops ih =>
      intro s
      rw [ttsTrace, ih]
      cases op <;> rfl

/-- C8: EngineAvailability is computed exactly once, at construction, and no
later operation of the service (synthesis, engine choice, status, voice
listing) re-probes or mutates it: after any sequence of operations the
availability list is still the one `_check_available_engines` computed in
`__init__`. Construction is total, so an empty availability set is not an
error: the all-empty environment constructs a service whose list is `[]`. -/
theorem availability_probed_once (env : TTSEnv) (dir : String) (ops : List TTSOp) :
    (ttsTrace (ttsNew env dir) ops).available_engines = check_available_engines env
  ∧ (ttsNew emptyTTSEnv dir).available_engines = [] :=
  ⟨ttsTrace_preserves_availability ops (ttsNew env dir), rfl⟩

theorem sttInitialize_preserves_fp16 (s : STTState) (o : LoadOracle)
    (h : fp16_invariant s) : fp16_invariant (sttInitialize s o).2 := by
  unfold sttInitialize
  split_ifs <;> first
  | exact h
  | simp [fp16_invariant]

theorem sttInitializeTrace_fp16 (os : List LoadOracle) :
    ∀ s : STTState, fp16_invariant s → fp16_invariant (sttInitializeTrace s os) := by
  induction os with
  | nil => intro s h; exact h
  | cons o os ih =>
      intro s h
      exact ih _ (sttInitialize_preserves_fp16 s o h)

/-- C9: the invariant `use_fp16 = (device is GPU)` holds after construction
for every combination of the force-CPU override and CUDA availability, and
is preserved by every sequence of `initialize()` calls, whatever each load
attempt does - including the path that falls back to CPU with half-precision
disabled. -/
theorem fp16_tracks_device (force_cpu cuda_available : Bool)
    (os : List LoadOracle) :
    fp16_invariant (sttInitializeTrace (sttNew force_cpu cuda_available) os) :=
  sttInitializeTrace_fp16 os (sttNew force_cpu cuda_available) rfl

/-- C2: every audio buffer under 100 bytes (the empty buffer included) is
rejected by `transcribe_audio_buffer` with the input-validation error - the
`ValueError("Audio buffer is too small or empty")` raise, re-raised wrapped
by the outer handler - before `transcribe_audio` runs even once and before
the temp file is materialized. -/
theorem undersized_buffer_rejected (n : Nat) (ml : Bool) (o : BufferOracle)
    (h : n < 100) :
    (transcribe_audio_buffer n ml o).result =
      .error (.inputValidation
        (buffer_error_wrap "Audio buffer is too small or empty"))
  ∧ (transcribe_audio_buffer n ml o).transcribe_calls = 0
  ∧ (transcribe_audio_buffer n ml o).temp_created = false := by
  simp [transcribe_audio_buffer, h]

/-- Witness for C2 at the empty buffer. -/
theorem undersized_buffer_rejected_witness :
    0 < 100
  ∧ (transcribe_audio_buffer 0 true okOracle).result =
      .error (.inputValidation
        (buffer_error_wrap "Audio buffer is too small or empty"))
  ∧ (transcribe_audio_buffer 0 true okOracle).transcribe_calls = 0 :=
  ⟨by decide, (undersized_buffer_rejected 0 true okOracle (by decide)).1,
   (undersized_buffer_rejected 0 true okOracle (by decide)).2.1⟩

/-- C4: for every `transcribe_audio_buffer` call that proceeds past input
validation, the temp file materialized from the buffer is gone when the call
returns, on every exit path - success, first-attempt failure with or without
a successful conversion, and failed retry - because the `finally` block
unlinks it. -/
theorem temp_file_deleted_on_every_path (n : Nat) (ml : Bool)
    (o : BufferOracle) (h : 100 ≤ n) :
    (transcribe_audio_buffer n ml o).temp_exists = false := by
  have hn : ¬ n < 100 := by omega
  obtain ⟨p, fst, ⟨ff, ro⟩, retry⟩ := o
  cases ml <;> cases fst <;> cases retry <;> cases ff <;> cases ro <;>
    simp [transcribe_audio_buffer, convert_audio_format, hn]

/-- Witness for C4 at the 100-byte boundary with a failing first attempt. -/
theorem temp_file_deleted_on_every_path_witness :
    100 ≤ 100
  ∧ (transcribe_audio_buffer 100 true failOracle).temp_exists = false :=
  ⟨by decide, temp_file_deleted_on_every_path 100 true failOracle (by decide)⟩

/-- C5: when the first transcription attempt fails, exactly one conversion
is attempted - with the fixed ffmpeg target of 16000 Hz and one channel -
and transcription is retried exactly once (only if the conversion produced a
file); if the conversion fails or the retried transcription also fails, the
original first-attempt error is the one that propagates, wrapped by the
outer handler. -/
theorem single_conversion_retry (n : Nat) (o : BufferOracle) (e1 : String)
    (h : 100 ≤ n) (hf : o.first = .error e1) :
    (transcribe_audio_buffer n true o).conv_attempts = 1
  ∧ (transcribe_audio_buffer n true o).transcribe_calls =
      (if convert_audio_format o.conv then 2 else 1)
  ∧ (convert_audio_format o.conv = false →
      (transcribe_audio_buffer n true o).result =
        .error (.transcription (buffer_error_wrap e1)))
  ∧ (∀ e2, o.retry = .error e2 →
      (transcribe_audio_buffer n true o).result =
        .error (.transcription (buffer_error_wrap e1)))
  ∧ argAfter (ffmpeg_convert_cmd "audio.webm" "audio.wav") "-ar" = some "16000"
  ∧ argAfter (ffmpeg_convert_cmd "audio.webm" "audio.wav") "-ac" = some "1" := by
  have hn : ¬ n < 100 := by omega
  obtain ⟨p, fst, ⟨ff, ro⟩, retry⟩ := o
  subst hf
  refine ⟨?_, ?_, ?_, ?_, by decide, by decide⟩ <;>
    cases retry <;> cases ff <;> cases ro <;>
      simp [transcribe_audio_buffer, convert_audio_format, hn]

/-- Witness for C5: no ffmpeg available, so the conversion fails and the
original error propagates after exactly one conversion attempt. -/
theorem single_conversion_retry_witness :
    100 ≤ 150
  ∧ (transcribe_audio_buffer 150 true failOracle).conv_attempts = 1
  ∧ (transcribe_audio_buffer 150 true failOracle).result =
      .error (.transcription (buffer_error_wrap "Transcription error: bad data")) :=
  ⟨by decide,
   (single_conversion_retry 150 failOracle "Transcription error: bad data"
      (by decide) rfl).1,
   (single_conversion_retry 150 failOracle "Transcription error: bad data"
      (by decide) rfl).2.2.1 rfl⟩

/-- C1: whenever the transcription stage raises, the synchronous process
operation returns the fixed degraded dict - empty transcript, the fixed
apology text, empty audio, and the "error" tag on all of stt_engine,
tts_engine and tts_voice. The embedding of the method is a total function
into `ResultDict`, so the raw transcription exception never reaches the
caller. -/
theorem stt_failure_degrades_to_safe_result (n : Nat) (ml : Bool)
    (o : BufferOracle) (llm : Except String String)
    (gtts : Except String (List Nat)) (v lang eng : String) (e : BufferError)
    (h : (transcribe_audio_buffer n ml o).result = .error e) :
    process_voice_input_sync (.audio n) ml o llm gtts v lang eng
      = voice_error_result
  ∧ (process_voice_input_sync (.audio n) ml o llm gtts v lang eng).lookup
      "transcription" = some (PyValue.str "")
  ∧ (process_voice_input_sync (.audio n) ml o llm gtts v lang eng).lookup
      "response_text" = some (PyValue.str
        "I'm having trouble processing your request. Please try again.")
  ∧ (process_voice_input_sync (.audio n) ml o llm gtts v lang eng).lookup
      "audio_data" = some (PyValue.bytes [])
  ∧ (process_voice_input_sync (.audio n) ml o llm gtts v lang eng).lookup
      "stt_engine" = some (PyValue.str "error")
  ∧ (process_voice_input_sync (.audio n) ml o llm gtts v lang eng).lookup
      "tts_engine" = some (PyValue.str "error")
  ∧ (process_voice_input_sync (.audio n) ml o llm gtts v lang eng).lookup
      "tts_voice" = some (PyValue.str "error") := by
  have hp : pipeline_transcript (.audio n) ml o = .error e := by
    simp [pipeline_transcript, h, Except.map]
  have hd : process_voice_input_sync (.audio n) ml o llm gtts v lang eng
      = voice_error_result := by
    simp [process_voice_input_sync, hp]
  refine ⟨hd, ?_, ?_, ?_, ?_, ?_, ?_⟩ <;> rw [hd] <;> rfl

/-- Witness for C1 at the empty buffer (validation raise inside the
transcription stage). -/
theorem stt_failure_degrades_to_safe_result_witness :
    process_voice_input_sync (.audio 0) true okOracle (.ok "reply") (.ok [1])
      "default" "en" "auto" = voice_error_result :=
  (stt_failure_degrades_to_safe_result 0 true okOracle (.ok "reply") (.ok [1])
    "default" "en" "auto"
    (.inputValidation (buffer_error_wrap "Audio buffer is too small or empty"))
    rfl).1

/-- C10 (implicit): the synchronous process operation is total over
exceptions - its embedding returns a `ResultDict` for every input and every
combination of stage outcomes, never an error value - and the returned dict
always contains the keys transcription, response_text, audio_data,
stt_engine and tts_engine. -/
theorem process_sync_total_with_required_keys (inp : AudioInput) (ml : Bool)
    (o : BufferOracle) (llm : Except String String)
    (gtts : Except String (List Nat)) (v lang eng : String) :
    ((process_voice_input_sync inp ml o llm gtts v lang eng).lookup
      "transcription").isSome = true
  ∧ ((process_voice_input_sync inp ml o llm gtts v lang eng).lookup
      "response_text").isSome = true
  ∧ ((process_voice_input_sync inp ml o llm gtts v lang eng).lookup
      "audio_data").isSome = true
  ∧ ((process_voice_input_sync inp ml o llm gtts v lang eng).lookup
      "stt_engine").isSome = true
  ∧ ((process_voice_input_sync inp ml o llm gtts v lang eng).lookup
      "tts_engine").isSome = true := by
  cases hp : pipeline_transcript inp ml o <;>
    simp [process_voice_input_sync, hp, voice_error_result, List.lookup]

/-- C7 counterexample: with the reply synthesis failing (gTTS error), the
synchronous pipeline returns a dict that keeps the transcript and reply text
and has no audio bytes, but its synthesis engine tag is "fallback" - not the
"error" tag the claim states. -/
theorem synthesis_failure_error_tag_counterexample :
    (process_voice_input_sync (.text "hi") true okOracle (.error "llm down")
        (.error "gtts down") "default" "en" "auto").lookup "tts_engine"
      = some (PyValue.str "fallback")
  ∧ some (PyValue.str "fallback") ≠ some (PyValue.str "error")
  ∧ (process_voice_input_sync (.text "hi") true okOracle (.error "llm down")
        (.error "gtts down") "default" "en" "auto").lookup "transcription"
      = some (PyValue.str "hi")
  ∧ (process_voice_input_sync (.text "hi") true okOracle (.error "llm down")
        (.error "gtts down") "default" "en" "auto").lookup "audio_data"
      = some (PyValue.bytes []) := by
  refine ⟨rfl, by decide, rfl, rfl⟩

/-- C7 amended: synthesis failures do not propagate from the synchronous
process operation and do not reach an "error" tag: `synthesize_speech_sync`
catches them internally, and a request whose reply fails to synthesize
yields a dict that still carries the transcript and the generated reply
text, with empty audio bytes and the "fallback" tag on the synthesis stage
(the sync synthesizer's outer "error" tag is not reachable from a synthesis
failure). -/
theorem synthesis_failure_keeps_text_with_fallback_tag (inp : AudioInput)
    (ml : Bool) (o : BufferOracle) (llm : Except String String)
    (g v lang eng t : String)
    (h : pipeline_transcript inp ml o = .ok t) :
    (process_voice_input_sync inp ml o llm (.error g) v lang eng).lookup
      "transcription" = some (PyValue.str t)
  ∧ (process_voice_input_sync inp ml o llm (.error g) v lang eng).lookup
      "response_text" = some (PyValue.str (generate_bitcoin_response_sync llm))
  ∧ (process_voice_input_sync inp ml o llm (.error g) v lang eng).lookup
      "audio_data" = some (PyValue.bytes [])
  ∧ (process_voice_input_sync inp ml o llm (.error g) v lang eng).lookup
      "tts_engine" = some (PyValue.str "fallback") := by
  simp [process_voice_input_sync, h, synthesize_speech_sync, List.lookup]

/-- Witness for the amended C7 on a text input. -/
theorem synthesis_failure_keeps_text_with_fallback_tag_witness :
    (process_voice_input_sync (.text "hi") true okOracle (.ok "reply")
      (.error "down") "default" "en" "auto").lookup "tts_engine"
      = some (PyValue.str "fallback") :=
  (synthesis_failure_keeps_text_with_fallback_tag (.text "hi") true okOracle
    (.ok "reply") "down" "default" "en" "auto" "hi" rfl).2.2.2

/-- A failing espeak subprocess run. -/
def espeakFailOracle : LocalOracle :=
  { returncode := 1, stdout := [], stderr := "boom", pico_written := [],
    gtts := .ok [] }

/-- C6 counterexample: an espeak dispatch whose subprocess exits nonzero
raises, and the temp output file is still on disk when `_synthesize_local`
returns - deletion is not unconditional, because the unlink sits inside the
success branch and there is no finally. -/
theorem local_temp_file_leak_counterexample :
    (synthesize_local .espeak "hello" "default" "en" espeakFailOracle).temp_exists
      = true
  ∧ (synthesize_local .espeak "hello" "default" "en" espeakFailOracle).result
      = .error (.commandFailed "boom") :=
  ⟨rfl, rfl⟩

/-- C6 amended: for every local command-line synthesis dispatch (espeak,
festival, pico2wave), a missing or zero-length synthesis result raises a
hard SynthesisError, and the temporary output file is deleted exactly on the
success path - on every failure path (command failure or empty output) it
remains on disk. -/
theorem local_synth_cleanup_on_success_only (eng : LocalEngine)
    (text voice language : String) (o : LocalOracle) (h : eng ≠ .gtts) :
    ((synthesize_local eng text voice language o).temp_exists = false ↔
        ∃ r, (synthesize_local eng text voice language o).result = .ok r)
  ∧ ((eng = .espeak ∨ eng = .festival) → o.returncode = 0 → o.stdout = [] →
      (synthesize_local eng text voice language o).result = .error .emptyOutput)
  ∧ (eng = .pico2wave → o.pico_written = [] →
      (synthesize_local eng text voice language o).result = .error .emptyOutput) := by
  obtain ⟨rc, sd, se, pw, gt⟩ := o
  cases eng
  case gtts => exact absurd rfl h
  case espeak =>
    by_cases hrc : rc = 0
    · cases sd <;> simp [synthesize_local, hrc]
    · simp [synthesize_local, hrc]
  case festival =>
    by_cases hrc : rc = 0
    · cases sd <;> simp [synthesize_local, hrc]
    · simp [synthesize_local, hrc]
  case pico2wave =>
    cases pw <;> simp [synthesize_local]

/-- Witness for the amended C6 on a failing espeak run. -/
theorem local_synth_cleanup_on_success_only_witness :
    LocalEngine.espeak ≠ LocalEngine.gtts
  ∧ ((synthesize_local .espeak "hello" "default" "en" espeakFailOracle).temp_exists
        = false ↔
      ∃ r, (synthesize_local .espeak "hello" "default" "en" espeakFailOracle).result
        = .ok r) :=
  ⟨by decide, (local_synth_cleanup_on_success_only .espeak "hello" "default" "en"
    espeakFailOracle (by decide)).1⟩

end TalkingOrange
